import Mathlib

/-!
Shallow embedding of `mautrix_appservice/intent_api.py`: the `HTTPAPI`
identity router with its `ChildHTTPAPI` derived contexts, and the
`IntentAPI` facade with its registration and membership guards.

The external matrix client library (`MatrixHttpApi`) is a collaborator:
its operations (`register`, `join_room`, `invite_user`,
`send_message_event`, `send_state_event`) are modelled by a script
assigning an outcome to each outbound call in order, and every run
records the trace of outbound calls it makes.
-/

namespace Mautrix

/-- Error raised by the external matrix client library. The JSON envelope
parsing of `err.content` performed by `matrix_error_code` is abstracted to
the extracted machine-readable error code, since the client's error
serialization is external to this module. -/
structure MatrixRequestError where
  errcode : String
  deriving DecidableEq

/-- `matrix_error_code(err)` from the source: extracts the machine-readable
error code carried by a `MatrixRequestError`. -/
def matrix_error_code (e : MatrixRequestError) : String := e.errcode

/-- The exceptions the embedded code can raise: `IntentError` (wrapping a
transport failure, with a message naming the acting identity and, for
joins, the room), a raw `MatrixRequestError` propagating unchanged, a
`ValueError`, and the `AttributeError` Python raises when
`self.bot.invite_user` is evaluated while `self.bot` is `None`. -/
inductive PyErr where
  | intentErr (message : String) (source : MatrixRequestError)
  | matrixErr (e : MatrixRequestError)
  | valueErr (message : String)
  | attrErr (message : String)
  deriving DecidableEq

/-- A message-event body as built by `send_text`: the `format` and
`formatted_body` keys are present only in the HTML branch, so they are
modelled with `Option`. -/
structure MessageBody where
  body : String
  msgtype : String
  format : Option String := none
  formatted_body : Option String := none
  deriving DecidableEq

/-- One outbound call to the transport collaborator. -/
inductive TCall where
  | register (username : String)
  | joinRoom (roomId : String)
  | inviteUser (roomId : String) (userId : String)
  | sendMessageEvent (roomId : String) (type : String) (body : MessageBody)
  | sendStateEvent (roomId : String) (type : String) (body : MessageBody) (stateKey : String)
  deriving DecidableEq

/-- Recognizer for registration calls in a trace. -/
def TCall.isRegister : TCall → Bool
  | .register _ => true
  | _ => false

/-- The transport's scripted behaviour: entry `n` is the outcome of the
`n`-th outbound call (`none` = success, `some e` = the call raises `e`);
calls beyond the end of the script succeed. -/
def Script : Type := List (Option MatrixRequestError)

/-- Outcome of the `n`-th outbound transport call under a script. -/
def respAt (script : Script) (n : Nat) : Option MatrixRequestError :=
  (List.get? script n).getD none

/-- The mutable per-intent state: the membership cache (`self.memberships`,
a dict of room id to membership) and the registration flag. -/
structure IntentState where
  memberships : List (String × String)
  registered : Bool
  deriving DecidableEq

/-- An `IntentAPI` object's construction-time data: its mxid, the localpart
captured by the regex at construction, and whether `self.bot` is set (the
bot delegate used for the invite fallback). -/
structure Intent where
  mxid : String
  localpart : String
  hasBot : Bool
  deriving DecidableEq

/-- State threaded through a run: intent state plus the trace of transport
calls made so far, in order. -/
structure StepState where
  st : IntentState
  calls : List TCall
  deriving DecidableEq

/-- `self.memberships.get(room_id, "")`. -/
def membershipsGet (st : IntentState) (room : String) : String :=
  (st.memberships.lookup room).getD ""

/-- `self.memberships[room_id] = value` (dict assignment). -/
def membershipsSet (st : IntentState) (room value : String) : IntentState :=
  { st with memberships := (room, value) :: st.memberships.filter (fun p => p.1 != room) }

/-- `IntentAPI._ensure_registered`, transcribed from the source: if the flag
is set, return; otherwise call `register` with the localpart as username; a
`MatrixRequestError` whose code differs from `M_USER_IN_USE` is rethrown as
an `IntentError` naming the mxid (leaving the flag untouched, since the
`raise` aborts before the assignment); on any other outcome the flag is set
to true. -/
def ensure_registered (it : Intent) (script : Script) (s : StepState) :
    Except PyErr Unit × StepState :=
  if s.st.registered then (.ok (), s)
  else
    let calls := s.calls ++ [TCall.register it.localpart]
    match respAt script s.calls.length with
    | some e =>
        if matrix_error_code e ≠ "M_USER_IN_USE" then
          (.error (.intentErr ("Failed to register " ++ it.mxid) e), ⟨s.st, calls⟩)
        else
          (.ok (), ⟨{ s.st with registered := true }, calls⟩)
    | none => (.ok (), ⟨{ s.st with registered := true }, calls⟩)

/-- `IntentAPI._ensure_joined`, transcribed from the source, including its
guard exactly as written there
(`if ignore_cache and self.memberships.get(room_id, "") == "join": return`)
and its outer raise condition exactly as written
(`matrix_error_code(e) != "M_FORBIDDEN" and not self.bot`). When
`self.bot` is `None` and control nevertheless reaches
`self.bot.invite_user(...)`, Python raises `AttributeError`, which the
inner `except MatrixRequestError` clause does not catch. -/
def ensure_joined (it : Intent) (script : Script) (room_id : String)
    (ignore_cache : Bool) (s : StepState) : Except PyErr Unit × StepState :=
  if ignore_cache = true ∧ membershipsGet s.st room_id = "join" then (.ok (), s)
  else
    match ensure_registered it script s with
    | (.error e, s1) => (.error e, s1)
    | (.ok _, s1) =>
      let s2 : StepState := ⟨s1.st, s1.calls ++ [TCall.joinRoom room_id]⟩
      match respAt script s1.calls.length with
      | none => (.ok (), ⟨membershipsSet s2.st room_id ("join"), s2.calls⟩)
      | some e =>
        if matrix_error_code e ≠ "M_FORBIDDEN" ∧ it.hasBot = false then
          (.error (.intentErr ("Failed to join room " ++ room_id ++ " as " ++ it.mxid) e), s2)
        else if it.hasBot = false then
          (.error (.attrErr ("NoneType object has no attribute invite_user")), s2)
        else
          let s3 : StepState := ⟨s2.st, s2.calls ++ [TCall.inviteUser room_id it.mxid]⟩
          match respAt script s2.calls.length with
          | some e2 =>
              (.error (.intentErr ("Failed to join room " ++ room_id ++ " as " ++ it.mxid) e2), s3)
          | none =>
            let s4 : StepState := ⟨s3.st, s3.calls ++ [TCall.joinRoom room_id]⟩
            match respAt script s3.calls.length with
            | some e2 =>
                (.error (.intentErr ("Failed to join room " ++ room_id ++ " as " ++ it.mxid) e2), s4)
            | none => (.ok (), ⟨membershipsSet s4.st room_id ("join"), s4.calls⟩)

/-- `IntentAPI.join_room`: delegates to `_ensure_joined` with
`ignore_cache=True`. -/
def join_room (it : Intent) (script : Script) (room_id : String) (s : StepState) :
    Except PyErr Unit × StepState :=
  ensure_joined it script room_id true s

/-- `IntentAPI._ensure_has_power_level_for`: the explicit no-op stub. -/
def ensure_has_power_level_for (_room_id _event_type : String) : Unit := ()

/-- `IntentAPI.send_event`: ensures joined (without forcing a cache
refresh), runs the power-level stub, then delegates to the transport's
`send_message_event`; a transport error propagates unchanged. -/
def send_event (it : Intent) (script : Script) (room_id type : String)
    (body : MessageBody) (s : StepState) : Except PyErr Unit × StepState :=
  match ensure_joined it script room_id false s with
  | (.error e, s1) => (.error e, s1)
  | (.ok _, s1) =>
    let _ := ensure_has_power_level_for room_id type
    let s2 : StepState := ⟨s1.st, s1.calls ++ [TCall.sendMessageEvent room_id type body]⟩
    match respAt script s1.calls.length with
    | some e => (.error (.matrixErr e), s2)
    | none => (.ok (), s2)

/-- `IntentAPI.send_state_event`: same precondition sequence as
`send_event`, delegating to the transport's `send_state_event`. -/
def send_state_event (it : Intent) (script : Script) (room_id type : String)
    (body : MessageBody) (state_key : String) (s : StepState) :
    Except PyErr Unit × StepState :=
  match ensure_joined it script room_id false s with
  | (.error e, s1) => (.error e, s1)
  | (.ok _, s1) =>
    let _ := ensure_has_power_level_for room_id type
    let s2 : StepState := ⟨s1.st, s1.calls ++ [TCall.sendStateEvent room_id type body state_key]⟩
    match respAt script s1.calls.length with
    | some e => (.error (.matrixErr e), s2)
    | none => (.ok (), s2)

/-- `IntentAPI.send_message`: delegates to `send_event` with event type
`m.room.message`. -/
def send_message (it : Intent) (script : Script) (room_id : String)
    (body : MessageBody) (s : StepState) : Except PyErr Unit × StepState :=
  send_event it script room_id ("m.room.message") body s

/-- `IntentAPI.send_text`, transcribed from the source: builds the plain or
HTML body (Python's `unformatted_text or text` falls back to `text` when
the argument is `None` or empty) and delegates to `send_message`. -/
def send_text (it : Intent) (script : Script) (room_id text : String)
    (html : Bool) (unformatted_text : Option String) (notice : Bool)
    (s : StepState) : Except PyErr Unit × StepState :=
  if html then
    send_message it script room_id
      { body := match unformatted_text with
                | some u => if u = "" then text else u
                | none => text,
        msgtype := if notice then "m.notice" else "m.text",
        format := some "org.matrix.custom.html",
        formatted_body := some text } s
  else
    send_message it script room_id
      { body := text,
        msgtype := if notice then "m.notice" else "m.text" } s

/-- Greedy split of a newline-free span at the rightmost colon that is
followed by at least one character: the backtracking behaviour of the
`(.+):(.+)` part of `mxid_regex = re.compile("@(.+):(.+)")` after the
leading `@`. The first group of the returned pair is everything before
that colon, the second everything after it. -/
def rsplitColon : List Char → Option (List Char × List Char)
  | [] => none
  | c :: rest =>
    match rsplitColon rest with
    | some (g1, g2) => some (c :: g1, g2)
    | none => if c = ':' ∧ rest ≠ [] then some ([], rest) else none

/-- One attempt of `mxid_regex` at a fixed start position: the position
must hold `@`, the dot of the pattern never crosses a newline, and group 1
must be nonempty. -/
def matchMxidAt : List Char → Option (List Char × List Char)
  | '@' :: rest =>
    match rsplitColon (rest.takeWhile (fun a => a ≠ '\n')) with
    | some (g1, g2) => if g1 = [] then none else some (g1, g2)
    | none => none
  | _ => none

/-- `mxid_regex.search(mxid)`: unanchored search, trying every start
position from the left and returning the capture groups of the first
position at which the pattern matches. -/
def searchMxid : List Char → Option (List Char × List Char)
  | [] => none
  | c :: rest =>
    match matchMxidAt (c :: rest) with
    | some r => some r
    | none => searchMxid rest

/-- `IntentAPI.__init__`: searches `mxid_regex` in the identifier, raising
`ValueError("invalid MXID")` when the search finds nothing, and otherwise
recording group 1 of the match as the localpart. -/
def IntentAPI.init (mxid : String) (hasBot : Bool) : Except PyErr Intent :=
  match searchMxid mxid.data with
  | none => .error (.valueErr ("invalid MXID"))
  | some (g1, _) => .ok ⟨mxid, ⟨g1⟩, hasBot⟩

/-- A derived connection context: exactly the fields `ChildHTTPAPI.__init__`
assigns (minus the back-pointer to the parent, which is passed explicitly
to the operations that use it). Note the structure has no transaction
counter field of its own. `L` is the type of logger values. -/
structure ChildCtx (L : Type) where
  identity : String
  token : Option String
  base_url : String
  validate_cert : Bool
  log : L
  deriving DecidableEq

/-- The root connection context: the fields `HTTPAPI.__init__` assigns,
with the children cache holding the derived contexts. -/
structure HTTPAPIState (L : Type) where
  base_url : String
  token : Option String
  identity : Option String
  txn_id : Nat
  bot_mxid : Option String
  log : L
  validate_cert : Bool
  children : List (String × ChildCtx L)

/-- `ChildHTTPAPI.__init__(user, parent)`: overrides the acting identity
with `user` and copies the parent's token, base url, certificate setting
and logger. -/
def ChildHTTPAPI.init {L : Type} (user : String) (parent : HTTPAPIState L) : ChildCtx L :=
  { identity := user, token := parent.token, base_url := parent.base_url,
    validate_cert := parent.validate_cert, log := parent.log }

/-- `HTTPAPI.user`: returns the cached child context for `user` when
present, otherwise creates one via `ChildHTTPAPI.__init__`, stores it in
the children cache and returns it. -/
def HTTPAPI.user {L : Type} (st : HTTPAPIState L) (u : String) :
    ChildCtx L × HTTPAPIState L :=
  match st.children.lookup u with
  | some child => (child, st)
  | none =>
    let child := ChildHTTPAPI.init u st
    (child, { st with children := (u, child) :: st.children })

/-- `HTTPAPI.intent(user)`: constructs an `IntentAPI` bound to the derived
context `self.user(user)`, with the router itself as the bot delegate
(so the resulting intent has a bot reference). -/
def HTTPAPI.intent {L : Type} (st : HTTPAPIState L) (u : String) :
    (Except PyErr Intent × ChildCtx L) × HTTPAPIState L :=
  let p := HTTPAPI.user st u
  ((IntentAPI.init u true, p.1), p.2)

/-- The `txn_id` property getter on a derived context: it reads the
parent's counter (a `ChildCtx` has no counter field it could read). -/
def ChildCtx.txn_id_get {L : Type} (parent : HTTPAPIState L) (_child : ChildCtx L) : Nat :=
  parent.txn_id

/-- The `txn_id` property setter on a derived context: it writes the
parent's counter. -/
def ChildCtx.txn_id_set {L : Type} (parent : HTTPAPIState L) (_child : ChildCtx L)
    (v : Nat) : HTTPAPIState L :=
  { parent with txn_id := v }

/-! ## Helper lemmas -/

/-- An already-registered intent makes `_ensure_registered` a strict no-op. -/
theorem ensure_registered_of_registered (it : Intent) (script : Script)
    (s : StepState) (h : s.st.registered = true) :
    ensure_registered it script s = (.ok (), s) := by
  simp [ensure_registered, h]

/-- Whenever `_ensure_registered` returns normally, the flag is set. -/
theorem registered_of_ensure_registered_ok (it : Intent) (script : Script)
    (s : StepState) (hok : (ensure_registered it script s).1 = .ok ()) :
    (ensure_registered it script s).2.st.registered = true := by
  by_cases h : s.st.registered = true
  · simp [ensure_registered, h]
  · have h2 : s.st.registered = false := by
      cases hb : s.st.registered
      · rfl
      · exact absurd hb h
    rcases hr : respAt script s.calls.length with _ | e
    · simp [ensure_registered, h2, hr]
    · by_cases hc : matrix_error_code e ≠ "M_USER_IN_USE"
      · exfalso
        simp [ensure_registered, h2, hr, hc] at hok
      · simp [ensure_registered, h2, hr, hc]

/-- The calls `_ensure_registered` appends: none when the flag is already
set, exactly one `register` call otherwise. -/
theorem ensure_registered_calls (it : Intent) (script : Script) (s : StepState) :
    (ensure_registered it script s).2.calls = s.calls
    ∨ (ensure_registered it script s).2.calls = s.calls ++ [TCall.register it.localpart] := by
  by_cases h : s.st.registered = true
  · left
    simp [ensure_registered, h]
  · have h2 : s.st.registered = false := by
      cases hb : s.st.registered
      · rfl
      · exact absurd hb h
    right
    rcases hr : respAt script s.calls.length with _ | e
    · simp [ensure_registered, h2, hr]
    · by_cases hc : matrix_error_code e ≠ "M_USER_IN_USE"
      · simp [ensure_registered, h2, hr, hc]
      · simp [ensure_registered, h2, hr, hc]

/-! ## Claims -/

/-- C1: the claim fails on the code. With the membership cache already
recording the room as joined, `join_room` — which per the claim must
always perform a real join attempt — returns without a single transport
call, while `send_event` on the very same cached state does perform a
join attempt before sending. The guard
`if ignore_cache and self.memberships.get(room_id, "") == "join": return`
skips exactly when a refresh IS being forced, the inverse of the claimed
(and intended) behaviour. -/
theorem C1_membership_guard_inverted_eval :
    (join_room ⟨"@u:d", "u", false⟩ ([] : List (Option MatrixRequestError)) ("!r:d")
        ⟨⟨[("!r:d", "join")], true⟩, []⟩)
      = (.ok (), ⟨⟨[("!r:d", "join")], true⟩, []⟩)
    ∧ (send_event ⟨"@u:d", "u", false⟩ ([] : List (Option MatrixRequestError)) ("!r:d")
        ("m.room.message") { body := "hi", msgtype := "m.text" }
        ⟨⟨[("!r:d", "join")], true⟩, []⟩).2.calls
      = [TCall.joinRoom ("!r:d"),
         TCall.sendMessageEvent ("!r:d") ("m.room.message")
           { body := "hi", msgtype := "m.text" }] :=
  ⟨rfl, rfl⟩

/-- C2: the claim fails on the code. First conjunct: with a bot delegate
present, a join failure whose code is not M_FORBIDDEN does not surface —
the code goes on to invite via the delegate and retry (here successfully),
because the raise condition uses `and` over the two cases instead of `or`.
Second conjunct: with no bot delegate, a forbidden failure is surfaced as
an `AttributeError` from dereferencing `self.bot = None`, not as the
identity-operation error the claim requires. -/
theorem C2_nonforbidden_failure_still_invites_eval :
    (ensure_joined ⟨"@u:d", "u", true⟩
        ([some ⟨"M_UNKNOWN"⟩] : List (Option MatrixRequestError)) ("!r:d") false
        ⟨⟨[], true⟩, []⟩)
      = (.ok (), ⟨⟨[("!r:d", "join")], true⟩,
          [TCall.joinRoom ("!r:d"), TCall.inviteUser ("!r:d") ("@u:d"),
           TCall.joinRoom ("!r:d")]⟩)
    ∧ (ensure_joined ⟨"@u:d", "u", false⟩
        ([some ⟨"M_FORBIDDEN"⟩] : List (Option MatrixRequestError)) ("!r:d") false
        ⟨⟨[], true⟩, []⟩).1
      = .error (.attrErr ("NoneType object has no attribute invite_user")) :=
  ⟨rfl, rfl⟩

/-- C4: a registration attempt failing with the distinguished
M_USER_IN_USE condition surfaces no error: `_ensure_registered` returns
normally and sets the registration flag. -/
theorem C4_already_exists_treated_as_success (it : Intent) (script : Script)
    (st : IntentState) (e : MatrixRequestError)
    (hreg : st.registered = false) (h0 : respAt script 0 = some e)
    (hcode : e.errcode = "M_USER_IN_USE") :
    ensure_registered it script ⟨st, []⟩
      = (.ok (), ⟨{ st with registered := true }, [TCall.register it.localpart]⟩) := by
  simp [ensure_registered, hreg, h0, matrix_error_code, hcode]

/-- Witness for C4 at a concrete input. -/
theorem C4_already_exists_treated_as_success_witness :
    ensure_registered ⟨"@u:d", "u", false⟩
        ([some ⟨"M_USER_IN_USE"⟩] : List (Option MatrixRequestError)) ⟨⟨[], false⟩, []⟩
      = (.ok (), ⟨⟨[], true⟩, [TCall.register ("u")]⟩) :=
  C4_already_exists_treated_as_success ⟨"@u:d", "u", false⟩
    ([some ⟨"M_USER_IN_USE"⟩] : List (Option MatrixRequestError)) ⟨[], false⟩
    ⟨"M_USER_IN_USE"⟩ rfl rfl rfl

/-- C5: `_ensure_registered` is idempotent. If the first call returns
normally (so the flag is true afterwards), the second call is a strict
no-op on the resulting state, and across both calls at most one
registration attempt reaches the transport. -/
theorem C5_ensure_registered_idempotent (it : Intent) (script : Script)
    (st : IntentState)
    (hok : (ensure_registered it script ⟨st, []⟩).1 = .ok ()) :
    ensure_registered it script (ensure_registered it script ⟨st, []⟩).2
      = (.ok (), (ensure_registered it script ⟨st, []⟩).2)
    ∧ ((ensure_registered it script
          (ensure_registered it script ⟨st, []⟩).2).2.calls.countP TCall.isRegister) ≤ 1
    ∧ (∀ s : StepState, s.st.registered = true →
        ensure_registered it script s = (.ok (), s)) := by
  have h1 : (ensure_registered it script ⟨st, []⟩).2.st.registered = true :=
    registered_of_ensure_registered_ok it script ⟨st, []⟩ hok
  have h2 : ensure_registered it script (ensure_registered it script ⟨st, []⟩).2
      = (.ok (), (ensure_registered it script ⟨st, []⟩).2) :=
    ensure_registered_of_registered it script _ h1
  refine ⟨h2, ?_, fun s hs => ensure_registered_of_registered it script s hs⟩
  rw [h2]
  rcases ensure_registered_calls it script ⟨st, []⟩ with h3 | h3 <;>
    simp [h3, List.countP_append, TCall.isRegister]

/-- Witness for C5 at a concrete input. -/
theorem C5_ensure_registered_idempotent_witness :
    ensure_registered ⟨"@u:d", "u", false⟩ ([] : List (Option MatrixRequestError))
        (ensure_registered ⟨"@u:d", "u", false⟩ ([] : List (Option MatrixRequestError))
          ⟨⟨[], false⟩, []⟩).2
      = (.ok (), (ensure_registered ⟨"@u:d", "u", false⟩
          ([] : List (Option MatrixRequestError)) ⟨⟨[], false⟩, []⟩).2) :=
  (C5_ensure_registered_idempotent ⟨"@u:d", "u", false⟩
    ([] : List (Option MatrixRequestError)) ⟨[], false⟩ rfl).1

/-- C8: a derived context has no transaction counter of its own: its
`txn_id` getter yields the parent root's counter, its setter updates the
root's counter, and after a write through any derived context every
derived context of the same root reads the new value. -/
theorem C8_txn_id_shared {L : Type} (parent : HTTPAPIState L)
    (c c2 : ChildCtx L) (v : Nat) :
    ChildCtx.txn_id_get parent c = parent.txn_id
    ∧ (ChildCtx.txn_id_set parent c v).txn_id = v
    ∧ ChildCtx.txn_id_get (ChildCtx.txn_id_set parent c v) c2 = v
    ∧ ChildCtx.txn_id_get parent c = ChildCtx.txn_id_get parent c2 :=
  ⟨rfl, rfl, rfl, rfl⟩

/-- C9: `send_text` builds exactly the specified message body and
delegates to `send_event` with the room-message event type: with
`html=false` the body is `body = text` and msgtype `m.text` (or `m.notice`
when `notice`); with `html=true` the body text is `unformatted_text`
falling back to `text` (when absent or empty), the HTML format marker is
set and `formatted_body` carries the text. -/
theorem C9_send_text_builds_body (it : Intent) (script : Script)
    (room text : String) (uft : Option String) (notice : Bool) (s : StepState) :
    send_text it script room text false uft notice s
      = send_event it script room ("m.room.message")
          { body := text, msgtype := if notice then "m.notice" else "m.text" } s
    ∧ send_text it script room text true uft notice s
      = send_event it script room ("m.room.message")
          { body := match uft with
                    | some u => if u = "" then text else u
                    | none => text,
            msgtype := if notice then "m.notice" else "m.text",
            format := some "org.matrix.custom.html",
            formatted_body := some text } s :=
  ⟨rfl, rfl⟩

/-- C10: when `_ensure_registered` surfaces an error, the registration
flag stays false (the `raise` aborts before the assignment), and a second
call on the resulting state contacts the transport again: the two runs
together perform two registration attempts. -/
theorem C10_flag_false_on_registration_error (it : Intent) (script : Script)
    (st : IntentState) (err : PyErr)
    (hreg : st.registered = false)
    (hfail : (ensure_registered it script ⟨st, []⟩).1 = .error err) :
    (ensure_registered it script ⟨st, []⟩).2.st.registered = false
    ∧ ((ensure_registered it script
          (ensure_registered it script ⟨st, []⟩).2).2.calls.countP TCall.isRegister) = 2 := by
  rcases hr : respAt script 0 with _ | e
  · exfalso
    simp [ensure_registered, hreg, hr] at hfail
  · by_cases hc : matrix_error_code e ≠ "M_USER_IN_USE"
    · have hrun : ensure_registered it script ⟨st, []⟩
          = (.error (.intentErr ("Failed to register " ++ it.mxid) e),
             ⟨st, [TCall.register it.localpart]⟩) := by
        simp [ensure_registered, hreg, hr, hc]
      refine ⟨by rw [hrun]; exact hreg, ?_⟩
      rw [hrun]
      have h4 : (ensure_registered it script ⟨st, [TCall.register it.localpart]⟩).2.calls
          = [TCall.register it.localpart, TCall.register it.localpart] := by
        rcases hr2 : respAt script 1 with _ | e2
        · simp [ensure_registered, hreg, hr2]
        · by_cases hc2 : matrix_error_code e2 ≠ "M_USER_IN_USE" <;>
            simp [ensure_registered, hreg, hr2, hc2]
      rw [h4]
      rfl
    · exfalso
      simp [ensure_registered, hreg, hr, hc] at hfail

/-- Witness for C10 at a concrete input. -/
theorem C10_flag_false_on_registration_error_witness :
    (ensure_registered ⟨"@u:d", "u", false⟩
        ([some ⟨"M_UNKNOWN"⟩] : List (Option MatrixRequestError)) ⟨⟨[], false⟩, []⟩).2.st.registered
      = false :=
  (C10_flag_false_on_registration_error ⟨"@u:d", "u", false⟩
    ([some ⟨"M_UNKNOWN"⟩] : List (Option MatrixRequestError)) ⟨[], false⟩
    (.intentErr ("Failed to register @u:d") ⟨"M_UNKNOWN"⟩) rfl rfl).1

/-- C3: a join failing with M_FORBIDDEN on an intent that has a bot
delegate triggers the single-shot recovery: the delegate's invite for this
room and identity is issued exactly once, then the join is retried exactly
once. A failure of the invite surfaces as an `IntentError` naming room and
identity with no retry; a failure of the retried join surfaces likewise;
and a successful retry caches the room as joined. `s1` is the state after
the registration guard (whose success is a hypothesis), so the first join
is transport call number `s1.calls.length`. -/
theorem C3_forbidden_with_bot_invite_retry (it : Intent) (script : Script)
    (room : String) (st : IntentState) (s1 : StepState) (e : MatrixRequestError)
    (hbot : it.hasBot = true)
    (hreg : ensure_registered it script ⟨st, []⟩ = (.ok (), s1))
    (h0 : respAt script s1.calls.length = some e)
    (hforb : e.errcode = "M_FORBIDDEN") :
    (∀ e2, respAt script (s1.calls.length + 1) = some e2 →
      ensure_joined it script room false ⟨st, []⟩
        = (.error (.intentErr ("Failed to join room " ++ room ++ " as " ++ it.mxid) e2),
           ⟨s1.st, s1.calls ++ [TCall.joinRoom room, TCall.inviteUser room it.mxid]⟩))
    ∧ (respAt script (s1.calls.length + 1) = none →
       ∀ e3, respAt script (s1.calls.length + 1 + 1) = some e3 →
      ensure_joined it script room false ⟨st, []⟩
        = (.error (.intentErr ("Failed to join room " ++ room ++ " as " ++ it.mxid) e3),
           ⟨s1.st, s1.calls ++ [TCall.joinRoom room, TCall.inviteUser room it.mxid,
             TCall.joinRoom room]⟩))
    ∧ (respAt script (s1.calls.length + 1) = none →
       respAt script (s1.calls.length + 1 + 1) = none →
      ensure_joined it script room false ⟨st, []⟩
        = (.ok (), ⟨membershipsSet s1.st room ("join"),
           s1.calls ++ [TCall.joinRoom room, TCall.inviteUser room it.mxid,
             TCall.joinRoom room]⟩)) := by
  refine ⟨?_, ?_, ?_⟩
  · intro e2 h1
    unfold ensure_joined
    rw [hreg]
    simp [h0, h1, hforb, hbot, matrix_error_code, List.length_append]
  · intro h1 e3 h2
    unfold ensure_joined
    rw [hreg]
    simp [h0, h1, h2, hforb, hbot, matrix_error_code, List.length_append]
  · intro h1 h2
    unfold ensure_joined
    rw [hreg]
    simp [h0, h1, h2, hforb, hbot, matrix_error_code, List.length_append]

/-- Witness for C3 at a concrete input: forbidden first join, successful
invite and successful retried join. -/
theorem C3_forbidden_with_bot_invite_retry_witness :
    ensure_joined ⟨"@u:d", "u", true⟩
        ([some ⟨"M_FORBIDDEN"⟩] : List (Option MatrixRequestError)) ("!r:d") false
        ⟨⟨[], true⟩, []⟩
      = (.ok (), ⟨membershipsSet ⟨[], true⟩ ("!r:d") ("join"),
          [TCall.joinRoom ("!r:d"), TCall.inviteUser ("!r:d") ("@u:d"),
           TCall.joinRoom ("!r:d")]⟩) :=
  ((C3_forbidden_with_bot_invite_retry ⟨"@u:d", "u", true⟩
      ([some ⟨"M_FORBIDDEN"⟩] : List (Option MatrixRequestError)) ("!r:d")
      ⟨[], true⟩ ⟨⟨[], true⟩, []⟩ ⟨"M_FORBIDDEN"⟩ rfl rfl rfl rfl).2.2) rfl rfl

/-- C6 counterexample: the identifier `x@a:b` is not of the two-part
`@localpart:domain` form (its first character is not `@`, so it is not
`"@" ++ anything`), yet construction succeeds, because `mxid_regex.search`
is unanchored and finds the embedded `@a:b`. -/
theorem C6_construction_accepts_nonform_input :
    IntentAPI.init ("x@a:b") false = .ok ⟨"x@a:b", "a", false⟩
    ∧ ("x@a:b" : String).data.head? ≠ some '@' :=
  ⟨rfl, by decide⟩

/-- A list with no colon admits no colon split. -/
theorem rsplitColon_eq_none (cs : List Char) (h : ∀ c ∈ cs, c ≠ ':') :
    rsplitColon cs = none := by
  induction cs with
  | nil => rfl
  | cons c rest ih =>
    have hc : c ≠ ':' := h c (by simp)
    have h2 : rsplitColon rest = none := ih (fun a ha => h a (by simp [ha]))
    simp [rsplitColon, h2, hc]

/-- Splitting a span that starts with its unique colon. -/
theorem rsplitColon_colon_cons (g2 : List Char) (hg2 : g2 ≠ [])
    (h : ∀ c ∈ g2, c ≠ ':') :
    rsplitColon (':' :: g2) = some ([], g2) := by
  simp [rsplitColon, rsplitColon_eq_none g2 h, hg2]

/-- A successful split is preserved under prepending, extending group 1. -/
theorem rsplitColon_append (pre suffix g1 g2 : List Char)
    (h : rsplitColon suffix = some (g1, g2)) :
    rsplitColon (pre ++ suffix) = some (pre ++ g1, g2) := by
  induction pre with
  | nil => simpa using h
  | cons c rest ih => simp [rsplitColon, ih]

/-- `takeWhile` keeps a list none of whose elements is a newline. -/
theorem takeWhile_ne_newline_eq_self (cs : List Char) (h : ∀ c ∈ cs, c ≠ '\n') :
    cs.takeWhile (fun a => a ≠ '\n') = cs := by
  induction cs with
  | nil => rfl
  | cons c rest ih =>
    have h1 : c ≠ '\n' := h c (by simp)
    have h2 : List.takeWhile (fun a => decide (a ≠ '\n')) rest = rest :=
      ih (fun a ha => h a (by simp [ha]))
    rw [List.takeWhile_cons]
    simp only [h1, decide_eq_true_eq, if_true, decide_True, h2]
    simp [h1, h2]

/-- C6 amended: every identifier of the two-part `@localpart:domain` form
(nonempty colon-free newline-free localpart and domain) is accepted, with
the localpart recorded from the capture group; but construction raises
exactly when the unanchored `mxid_regex.search` finds no match anywhere in
the identifier — NOT exactly when the identifier deviates from the
two-part form, since identifiers that merely contain such a substring
(like `x@a:b`) are also accepted. -/
theorem C6_construction_amended (l d : String) (hasBot : Bool)
    (hl : l.data ≠ []) (hd : d.data ≠ [])
    (hlc : ∀ c ∈ l.data, c ≠ ':' ∧ c ≠ '\n')
    (hdc : ∀ c ∈ d.data, c ≠ ':' ∧ c ≠ '\n') :
    IntentAPI.init ("@" ++ l ++ ":" ++ d) hasBot
      = .ok ⟨"@" ++ l ++ ":" ++ d, l, hasBot⟩
    ∧ ∀ mxid hb, (IntentAPI.init mxid hb = .error (.valueErr ("invalid MXID"))
        ↔ searchMxid mxid.data = none) := by
  constructor
  · have hdata : ("@" ++ l ++ ":" ++ d).data = '@' :: (l.data ++ ':' :: d.data) := by
      show ('@' :: ((l.data ++ [':']) ++ d.data)) = '@' :: (l.data ++ ':' :: d.data)
      simp
    have hnl : ∀ c ∈ (l.data ++ ':' :: d.data), c ≠ '\n' := by
      intro c hc
      rcases List.mem_append.mp hc with h | h
      · exact (hlc c h).2
      · rcases List.mem_cons.mp h with h | h
        · rw [h]
          decide
        · exact (hdc c h).2
    have htw : (l.data ++ ':' :: d.data).takeWhile (fun a => a ≠ '\n')
        = l.data ++ ':' :: d.data :=
      takeWhile_ne_newline_eq_self _ hnl
    have hsplit : rsplitColon (l.data ++ ':' :: d.data) = some (l.data, d.data) := by
      have hbase : rsplitColon (':' :: d.data) = some ([], d.data) :=
        rsplitColon_colon_cons d.data hd (fun c hc => (hdc c hc).1)
      have := rsplitColon_append l.data (':' :: d.data) [] d.data hbase
      simpa using this
    have hm : matchMxidAt ('@' :: (l.data ++ ':' :: d.data)) = some (l.data, d.data) := by
      simp only [matchMxidAt]
      rw [htw, hsplit]
      simp [hl]
    have hs : searchMxid ('@' :: (l.data ++ ':' :: d.data)) = some (l.data, d.data) := by
      simp only [searchMxid]
      rw [hm]
    unfold IntentAPI.init
    rw [hdata, hs]
  · intro mxid hb
    rcases h : searchMxid mxid.data with _ | r
    · simp [IntentAPI.init, h]
    · rcases r with ⟨g1, g2⟩
      simp [IntentAPI.init, h]

/-- Witness for C6's amended statement at a concrete input. -/
theorem C6_construction_amended_witness :
    IntentAPI.init ("@alice:example.org") false
      = .ok ⟨"@alice:example.org", "alice", false⟩ := by
  have h := (C6_construction_amended ("alice") ("example.org") false
    (by decide) (by decide) (by decide) (by decide)).1
  exact h

/-- C7: the identity router's context lookup is pure memoization with no
failure modes: requesting the derived context for the same identifier
twice (directly or by constructing an intent through the router twice)
returns the identical derived context and leaves the cache unchanged; and
a context created on a cache miss is exactly `ChildHTTPAPI.__init__`'s
copy, carrying the parent's token, base url, certificate setting and
logger with the acting identity overridden to the requested one. -/
theorem C7_user_context_memoized {L : Type} (st : HTTPAPIState L) (u : String) :
    (HTTPAPI.user (HTTPAPI.user st u).2 u).1 = (HTTPAPI.user st u).1
    ∧ (HTTPAPI.user (HTTPAPI.user st u).2 u).2 = (HTTPAPI.user st u).2
    ∧ (HTTPAPI.intent (HTTPAPI.intent st u).2 u).1.2 = (HTTPAPI.intent st u).1.2
    ∧ (st.children.lookup u = none →
        (HTTPAPI.user st u).1 = ChildHTTPAPI.init u st
        ∧ (HTTPAPI.user st u).1.identity = u
        ∧ (HTTPAPI.user st u).1.token = st.token
        ∧ (HTTPAPI.user st u).1.base_url = st.base_url
        ∧ (HTTPAPI.user st u).1.validate_cert = st.validate_cert
        ∧ (HTTPAPI.user st u).1.log = st.log) := by
  rcases h : st.children.lookup u with _ | c
  · have h2 : ((u, ChildHTTPAPI.init u st) :: st.children).lookup u
        = some (ChildHTTPAPI.init u st) := by
      simp [List.lookup]
    refine ⟨?_, ?_, ?_, fun _ => ?_⟩
    · simp [HTTPAPI.user, h, h2]
    · simp [HTTPAPI.user, h, h2]
    · simp [HTTPAPI.intent, HTTPAPI.user, h, h2]
    · simp [HTTPAPI.user, h, ChildHTTPAPI.init]
  · refine ⟨?_, ?_, ?_, fun hnone => ?_⟩
    · simp [HTTPAPI.user, h]
    · simp [HTTPAPI.user, h]
    · simp [HTTPAPI.intent, HTTPAPI.user, h]
    · simp [h] at hnone


/-- Witness for C7 at a concrete input (logger values drawn from `Nat`). -/
theorem C7_user_context_memoized_witness :
    (HTTPAPI.user (HTTPAPI.user
        (⟨"http://hs", some "tok", none, 0, some "@bot:hs", 7, true, []⟩ : HTTPAPIState Nat)
        ("@a:hs")).2 ("@a:hs")).1
      = (HTTPAPI.user
        (⟨"http://hs", some "tok", none, 0, some "@bot:hs", 7, true, []⟩ : HTTPAPIState Nat)
        ("@a:hs")).1
    ∧ (HTTPAPI.user
        (⟨"http://hs", some "tok", none, 0, some "@bot:hs", 7, true, []⟩ : HTTPAPIState Nat)
        ("@a:hs")).1.token = some "tok" :=
  ⟨(C7_user_context_memoized
      (⟨"http://hs", some "tok", none, 0, some "@bot:hs", 7, true, []⟩ : HTTPAPIState Nat)
      ("@a:hs")).1,
   ((C7_user_context_memoized
      (⟨"http://hs", some "tok", none, 0, some "@bot:hs", 7, true, []⟩ : HTTPAPIState Nat)
      ("@a:hs")).2.2.2 rfl).2.2.1⟩

end Mautrix
